import Mathlib

/-!
Verification of the SatCat5 Python host tools: the SLIP framing codec and
Ethernet FCS handling (`src/python/satcat5_uart.py`) and the ConfigBus
register-access client (`src/python/satcat5_cfgbus.py`).

Byte strings are modelled as `List Nat` with every element below 256 where it
matters.  Fallible Python code is modelled with an explicit result type that
distinguishes a raised exception from a returned value.
-/

set_option autoImplicit false

namespace SatCat5

/-! ### Python primitives -/

/-- Result of running a Python call: either a returned value or a raised
exception (struct.error, IndexError, ...). -/
inductive PyResult (α : Type) : Type where
  | ok  : α → PyResult α
  | exn : PyResult α
  deriving DecidableEq, Repr

/-- Is `pat` an initial segment of `s`?  (Helper for `pyReplace`.) -/
def isPre : List Nat → List Nat → Bool
  | [], _ => true
  | _ :: _, [] => false
  | p :: ps, b :: bs => p == b && isPre ps bs

/-- Worker for `pyReplace`, structurally recursive on a fuel argument so that
the function computes by kernel reduction.  `pyReplace` supplies fuel equal to
the length of the string, which never runs out (`pyReplaceF_fuel`). -/
def pyReplaceF (pat rep : List Nat) : Nat → List Nat → List Nat
  | _, [] => []
  | 0, s => s
  | fuel + 1, b :: t =>
    if isPre pat (b :: t) ∧ pat ≠ [] then
      rep ++ pyReplaceF pat rep fuel (t.drop (pat.length - 1))
    else
      b :: pyReplaceF pat rep fuel t

/-- Python `bytes.replace(pat, rep)` for a non-empty pattern: scan left to
right; where `pat` matches, emit `rep` and resume after the match (matches do
not overlap and replacements are not rescanned); otherwise emit one byte. -/
def pyReplace (pat rep s : List Nat) : List Nat :=
  pyReplaceF pat rep s.length s

/-- Any fuel of at least the string's length gives the same result, so the
fuel in `pyReplace` is invisible. -/
theorem pyReplaceF_fuel (pat rep : List Nat) :
    ∀ (fuel : Nat) (s : List Nat), s.length ≤ fuel →
      pyReplaceF pat rep fuel s = pyReplace pat rep s := by
  intro fuel
  induction fuel using Nat.strong_induction_on with
  | _ fuel ih =>
    intro s hs
    cases s with
    | nil => cases fuel <;> rfl
    | cons b t =>
      cases fuel with
      | zero => simp at hs
      | succ n =>
        show pyReplaceF pat rep (n + 1) (b :: t) =
          pyReplaceF pat rep (t.length + 1) (b :: t)
        simp only [pyReplaceF]
        have hlen := List.length_cons b t ▸ hs
        by_cases h : isPre pat (b :: t) ∧ pat ≠ []
        · simp only [if_pos h]
          have hd := List.length_drop (pat.length - 1) t
          rw [ih n (by omega) _ (by omega),
              ih t.length (by omega) _ (by omega)]
        · simp only [if_neg h]
          rw [ih n (by omega) t (by omega),
              ih t.length (by omega) t (by omega)]

/-- Unfolding lemma for `pyReplace` on a non-empty string. -/
theorem pyReplace_cons (pat rep : List Nat) (b : Nat) (t : List Nat) :
    pyReplace pat rep (b :: t) =
      if isPre pat (b :: t) ∧ pat ≠ [] then
        rep ++ pyReplace pat rep (t.drop (pat.length - 1))
      else
        b :: pyReplace pat rep t := by
  show pyReplaceF pat rep (t.length + 1) (b :: t) = _
  simp only [pyReplaceF]
  by_cases h : isPre pat (b :: t) ∧ pat ≠ []
  · simp only [if_pos h]
    have h2 : (t.drop (pat.length - 1)).length ≤ t.length := by
      have := List.length_drop (pat.length - 1) t
      omega
    rw [pyReplaceF_fuel _ _ _ _ h2]
  · simp only [if_neg h]
    rfl

theorem pyReplace_nil (pat rep : List Nat) : pyReplace pat rep [] = [] := rfl

/-! ### SLIP codec (`satcat5_uart.py`)

`SLIP_END = b'\xC0'`, `SLIP_ESC = b'\xDB'`, `SLIP_ESC_END = b'\xDB\xDC'`,
`SLIP_ESC_ESC = b'\xDB\xDD'`. -/

def SLIP_END : Nat := 0xC0
def SLIP_ESC : Nat := 0xDB
def SLIP_ESC_END : List Nat := [0xDB, 0xDC]
def SLIP_ESC_ESC : List Nat := [0xDB, 0xDD]

/-- `slipDecode(data)`:
`data.replace(SLIP_END, b'').replace(SLIP_ESC_END, SLIP_END).replace(SLIP_ESC_ESC, SLIP_ESC)`. -/
def slipDecode (data : List Nat) : List Nat :=
  pyReplace SLIP_ESC_ESC [SLIP_ESC]
    (pyReplace SLIP_ESC_END [SLIP_END]
      (pyReplace [SLIP_END] [] data))

/-- `slipEncode(data)`:
`data.replace(SLIP_ESC, SLIP_ESC_ESC).replace(SLIP_END, SLIP_ESC_END) + SLIP_END`. -/
def slipEncode (data : List Nat) : List Nat :=
  pyReplace [SLIP_END] SLIP_ESC_END
    (pyReplace [SLIP_ESC] SLIP_ESC_ESC data) ++ [SLIP_END]

/-! #### Computation lemmas for `pyReplace` on the patterns the codec uses -/

theorem pyReplace1_cons_match (c : Nat) (rep t : List Nat) (b : Nat) (hb : b = c) :
    pyReplace [c] rep (b :: t) = rep ++ pyReplace [c] rep t := by
  subst hb
  rw [pyReplace_cons, if_pos]
  · rfl
  · exact ⟨by simp [isPre], by simp⟩

theorem pyReplace1_cons_ne (c : Nat) (rep t : List Nat) (b : Nat) (hb : b ≠ c) :
    pyReplace [c] rep (b :: t) = b :: pyReplace [c] rep t := by
  rw [pyReplace_cons, if_neg]
  rintro ⟨h1, -⟩
  simp [isPre] at h1
  exact hb h1.symm

theorem pyReplace2_cons_ne (c x : Nat) (rep t : List Nat) (b : Nat) (hb : b ≠ c) :
    pyReplace [c, x] rep (b :: t) = b :: pyReplace [c, x] rep t := by
  rw [pyReplace_cons, if_neg]
  rintro ⟨h1, -⟩
  simp [isPre] at h1
  exact hb h1.1.symm

theorem pyReplace2_cons_ne2 (c x : Nat) (rep : List Nat) (y : Nat) (t : List Nat)
    (hy : y ≠ x) :
    pyReplace [c, x] rep (c :: y :: t) = c :: pyReplace [c, x] rep (y :: t) := by
  rw [pyReplace_cons, if_neg]
  rintro ⟨h1, -⟩
  simp [isPre] at h1
  exact hy h1.symm

theorem pyReplace2_cons_match (c x : Nat) (rep t : List Nat) :
    pyReplace [c, x] rep (c :: x :: t) = rep ++ pyReplace [c, x] rep t := by
  rw [pyReplace_cons, if_pos]
  · rfl
  · exact ⟨by simp [isPre], by simp⟩

/-! #### Round-trip proof -/

/-- One byte of the encoder body: the net effect on a single byte of the two
substitution passes inside `slipEncode`. -/
def escByte (b : Nat) : List Nat :=
  if b = SLIP_ESC then SLIP_ESC_ESC
  else if b = SLIP_END then SLIP_ESC_END
  else [b]

/-- The encoder body: `escByte` applied bytewise. -/
def encBody : List Nat → List Nat
  | [] => []
  | b :: t => escByte b ++ encBody t

/-- Unfold `encBody` on a `cons`, with the escape table spelled out. -/
theorem encBody_cons (b : Nat) (t : List Nat) :
    encBody (b :: t) =
      (if b = 0xDB then [0xDB, 0xDD]
       else if b = 0xC0 then [0xDB, 0xDC]
       else [b]) ++ encBody t := rfl

/-- The two substitution passes of `slipEncode` act bytewise. -/
theorem slipEncode_body (p : List Nat) :
    pyReplace [0xC0] [0xDB, 0xDC] (pyReplace [0xDB] [0xDB, 0xDD] p) =
      encBody p := by
  induction p with
  | nil => rfl
  | cons b t ih =>
    rw [encBody_cons]
    by_cases hesc : b = 0xDB
    · subst hesc
      rw [pyReplace1_cons_match 0xDB [0xDB, 0xDD] t 0xDB rfl]
      show pyReplace [0xC0] [0xDB, 0xDC]
        (0xDB :: 0xDD :: pyReplace [0xDB] [0xDB, 0xDD] t) = _
      rw [pyReplace1_cons_ne 0xC0 [0xDB, 0xDC]
            (0xDD :: pyReplace [0xDB] [0xDB, 0xDD] t) 0xDB (by decide),
          pyReplace1_cons_ne 0xC0 [0xDB, 0xDC]
            (pyReplace [0xDB] [0xDB, 0xDD] t) 0xDD (by decide), ih]
      rfl
    · rw [pyReplace1_cons_ne 0xDB [0xDB, 0xDD] t b hesc]
      by_cases hend : b = 0xC0
      · subst hend
        rw [pyReplace1_cons_match 0xC0 [0xDB, 0xDC]
              (pyReplace [0xDB] [0xDB, 0xDD] t) 0xC0 rfl, ih]
        rfl
      · rw [pyReplace1_cons_ne 0xC0 [0xDB, 0xDC]
              (pyReplace [0xDB] [0xDB, 0xDD] t) b hend, ih]
        simp [hesc, hend]

theorem slipEncode_eq (p : List Nat) :
    slipEncode p = encBody p ++ [0xC0] :=
  congrArg (· ++ [0xC0]) (slipEncode_body p)

/-- The encoder body never contains the `END` byte. -/
theorem encBody_no_end (p : List Nat) : 0xC0 ∉ encBody p := by
  induction p with
  | nil => simp [encBody]
  | cons b t ih =>
    rw [encBody_cons]
    simp only [List.mem_append]
    rintro (h | h)
    · by_cases hesc : b = 0xDB
      · simp [hesc] at h
      · by_cases hend : b = 0xC0
        · simp [hesc, hend] at h
        · simp [hesc, hend] at h
          exact hend h.symm
    · exact ih h

/-- Stripping the `END` bytes from an encoded frame removes exactly the
final terminator. -/
theorem strip_end (x : List Nat) (hx : 0xC0 ∉ x) :
    pyReplace [0xC0] [] (x ++ [0xC0]) = x := by
  induction x with
  | nil =>
    show pyReplace [0xC0] [] [0xC0] = []
    rw [pyReplace1_cons_match _ _ _ _ rfl]
    rfl
  | cons b t ih =>
    have hb : b ≠ 0xC0 := fun h => hx (h ▸ List.mem_cons_self b t)
    have ht : (0xC0 : Nat) ∉ t := fun h => hx (List.mem_cons_of_mem b h)
    show pyReplace [0xC0] [] (b :: (t ++ [0xC0])) = b :: t
    rw [pyReplace1_cons_ne _ _ _ _ hb, ih ht]

/-- The two substitution passes of `slipDecode` invert the encoder body. -/
theorem decode_body (p : List Nat) :
    pyReplace [0xDB, 0xDD] [0xDB]
      (pyReplace [0xDB, 0xDC] [0xC0] (encBody p)) = p := by
  induction p with
  | nil => rfl
  | cons b t ih =>
    rw [encBody_cons]
    by_cases hesc : b = 0xDB
    · subst hesc
      show pyReplace [0xDB, 0xDD] [0xDB]
        (pyReplace [0xDB, 0xDC] [0xC0] (0xDB :: 0xDD :: encBody t)) = 0xDB :: t
      rw [pyReplace2_cons_ne2 0xDB 0xDC [0xC0] 0xDD (encBody t) (by decide),
          pyReplace2_cons_ne 0xDB 0xDC [0xC0] (encBody t) 0xDD (by decide),
          pyReplace2_cons_match 0xDB 0xDD [0xDB]
            (pyReplace [0xDB, 0xDC] [0xC0] (encBody t)), ih]
      rfl
    · by_cases hend : b = 0xC0
      · subst hend
        show pyReplace [0xDB, 0xDD] [0xDB]
          (pyReplace [0xDB, 0xDC] [0xC0] (0xDB :: 0xDC :: encBody t)) = 0xC0 :: t
        rw [pyReplace2_cons_match 0xDB 0xDC [0xC0] (encBody t)]
        show pyReplace [0xDB, 0xDD] [0xDB]
          (0xC0 :: pyReplace [0xDB, 0xDC] [0xC0] (encBody t)) = 0xC0 :: t
        rw [pyReplace2_cons_ne 0xDB 0xDD [0xDB]
              (pyReplace [0xDB, 0xDC] [0xC0] (encBody t)) 0xC0 (by decide), ih]
      · rw [if_neg hesc, if_neg hend, List.singleton_append,
            pyReplace2_cons_ne 0xDB 0xDC [0xC0] (encBody t) b hesc,
            pyReplace2_cons_ne 0xDB 0xDD [0xDB]
              (pyReplace [0xDB, 0xDC] [0xC0] (encBody t)) b hesc, ih]

theorem slip_roundtrip (p : List Nat) : slipDecode (slipEncode p) = p := by
  rw [slipEncode_eq]
  show pyReplace [0xDB, 0xDD] [0xDB]
    (pyReplace [0xDB, 0xDC] [0xC0]
      (pyReplace [0xC0] [] (encBody p ++ [0xC0]))) = p
  rw [strip_end _ (encBody_no_end p), decode_body]

/-! ### struct.pack helpers

`pack('>B', n)` / `pack('>L', n)` / `pack('<L', n)` / `pack('>H', n)` for
in-range arguments (Python raises `struct.error` out of range; every use in
this development is guarded by an in-range hypothesis, so the reduction
modulo the field width below is never visible). -/

/-- One byte, `pack('>B', n)`. -/
def packB (n : Nat) : List Nat := [n % 256]

/-- Two bytes big-endian, `pack('>H', n)`. -/
def packH (n : Nat) : List Nat := [n / 256 % 256, n % 256]

/-- Four bytes big-endian, `pack('>L', n)`. -/
def packL (n : Nat) : List Nat :=
  [n / 16777216 % 256, n / 65536 % 256, n / 256 % 256, n % 256]

/-- Four bytes little-endian, `pack('<L', n)`. -/
def packLle (n : Nat) : List Nat :=
  [n % 256, n / 256 % 256, n / 65536 % 256, n / 16777216 % 256]

/-- Big-endian value of four bytes, `unpack('>L', bs)` for `bs` of length 4. -/
def unpackL (bs : List Nat) : Nat :=
  16777216 * bs.getD 0 0 + 65536 * bs.getD 1 0 + 256 * bs.getD 2 0 + bs.getD 3 0

/-! ### CRC-32 (`ethernet_crc`, `crc_self_test`)

`ethernet_crc` calls `zlib.crc32`, an external library routine; it is embedded
here by its standard definition (also stated in the repository documentation):
the reflected CRC-32 with polynomial `0xEDB88320`, initial value and final
XOR `0xFFFFFFFF`, processed least-significant bit first. -/

/-- One shift step of the reflected CRC-32 with polynomial `0xEDB88320`. -/
def crcStep (c : Nat) : Nat :=
  if c % 2 = 1 then (c / 2) ^^^ 0xEDB88320 else c / 2

/-- Absorb one byte into the running CRC (eight shift steps). -/
def crcByte (c b : Nat) : Nat := crcStep^[8] (c ^^^ b)

/-- `zlib.crc32(data) & 0xFFFFFFFF`. -/
def crc32 (data : List Nat) : Nat :=
  (data.foldl crcByte 0xFFFFFFFF) ^^^ 0xFFFFFFFF

/-- `ethernet_crc(pkt)`: `pack('<L', crc32(pkt) & 0xFFFFFFFF)`. -/
def ethernet_crc (pkt : List Nat) : List Nat :=
  packLle (crc32 pkt &&& 0xFFFFFFFF)

/-- Reference packet #1 of `crc_self_test` (an ARP frame). -/
def PKT1 : List Nat :=
  [0xFF, 0xFF, 0xFF, 0xFF, 0xFF, 0xFF, 0x00, 0x20, 0xAF, 0xB7, 0x80, 0xB8,
   0x08, 0x06, 0x00, 0x01, 0x08, 0x00, 0x06, 0x04, 0x00, 0x01, 0x00, 0x20,
   0xAF, 0xB7, 0x80, 0xB8, 0x80, 0xE8, 0x0F, 0x94, 0x00, 0x00, 0x00, 0x00,
   0x00, 0x00, 0x80, 0xE8, 0x0F, 0xDE, 0xDE, 0xDE, 0xDE, 0xDE, 0xDE, 0xDE,
   0xDE, 0xDE, 0xDE, 0xDE, 0xDE, 0xDE, 0xDE, 0xDE, 0xDE, 0xDE, 0xDE, 0xDE]

/-- Reference checksum for `PKT1`. -/
def REF1 : List Nat := [0x9E, 0xD2, 0xC2, 0xAF]

/-- Reference packet #2 of `crc_self_test` (a UDP broadcast frame). -/
def PKT2 : List Nat :=
  [0xFF, 0xFF, 0xFF, 0xFF, 0xFF, 0xFF, 0x00, 0x00, 0x00, 0x04, 0x14, 0x13,
   0x08, 0x00, 0x45, 0x00, 0x00, 0x2E, 0x00, 0x00, 0x00, 0x00, 0x40, 0x11,
   0x7A, 0xC0, 0x00, 0x00, 0x00, 0x00, 0xFF, 0xFF, 0xFF, 0xFF, 0x00, 0x00,
   0x50, 0xDA, 0x00, 0x12, 0x00, 0x00, 0x42, 0x42, 0x42, 0x42, 0x42, 0x42,
   0x42, 0x42, 0x42, 0x42, 0x42, 0x42, 0x42, 0x42, 0x42, 0x42, 0x42, 0x42]

/-- Reference checksum for `PKT2`. -/
def REF2 : List Nat := [0x9B, 0xF6, 0xD0, 0xFD]

/-- `crc_self_test()`: counts the reference vectors that mismatch. -/
def crc_self_test : Nat :=
  (if REF1 ≠ ethernet_crc PKT1 then 1 else 0) +
  (if REF2 ≠ ethernet_crc PKT2 then 1 else 0)

/-- `crcByte` with its eight shift steps written out (for evaluation by
rewriting, which keeps the term shallow). -/
theorem crcByte_unfold (c b : Nat) :
    crcByte c b =
      crcStep (crcStep (crcStep (crcStep
        (crcStep (crcStep (crcStep (crcStep (c ^^^ b)))))))) := rfl

theorem crc32_PKT1 : crc32 PKT1 = 0xAFC2D29E := by
  simp [crc32, PKT1, List.foldl, crcByte_unfold, crcStep]

theorem crc32_PKT2 : crc32 PKT2 = 0xFDD0F69B := by
  simp [crc32, PKT2, List.foldl, crcByte_unfold, crcStep]

theorem ethernet_crc_PKT1 : ethernet_crc PKT1 = REF1 := by
  rw [ethernet_crc, crc32_PKT1]
  decide

theorem ethernet_crc_PKT2 : ethernet_crc PKT2 = REF2 := by
  rw [ethernet_crc, crc32_PKT2]
  decide

/-! ### `AsyncSLIPPort.msg_rcvd` (`satcat5_uart.py`)

The method decodes one SLIP frame and notifies `self._callback`.  The model
returns the frame handed to the callback (`none` when nothing is delivered)
together with a flag recording whether the CRC-mismatch warning was logged.
`hasCallback` models whether `self._callback` is set. -/

namespace AsyncSLIPPort

def msg_rcvd (hasCallback eth_fcs drop_fcs : Bool) (slip_frm : List Nat) :
    Option (List Nat) × Bool :=
  let eth_frm := slipDecode slip_frm
  if hasCallback = false then
    (none, false)
  else if eth_fcs = false then
    (some eth_frm, false)
  else if 18 ≤ eth_frm.length then
    let eth_dat := eth_frm.take (eth_frm.length - 4)
    let rcv_crc := eth_frm.drop (eth_frm.length - 4)
    let ref_crc := ethernet_crc eth_dat
    if ref_crc = rcv_crc then (some eth_dat, false)
    else if drop_fcs = true then (none, false)
    else (some eth_dat, true)
  else
    (none, false)

end AsyncSLIPPort

/-! ### ConfigBus client (`satcat5_cfgbus.py`)

The mutable session state of a `ConfigBus` object.  The blocking wait inside
`write_reg`/`read_reg`/`multi_write`/`multi_read` is modelled by passing in
`delivered`: the content of the pending-reply slot at the moment
`_msg_wait` reads it (`none` when the timeout expired with no valid reply
stored). -/

structure CfgState where
  fastwr : Bool
  readable : Bool
  reply : Option (List Nat)
  seq : Nat
  etypeAck : List Nat
  ethhdr : List Nat
  deriving DecidableEq, Repr

namespace ConfigBus

def OPCODE_WR_RPT : Nat := 0x2F
def OPCODE_WR_INC : Nat := 0x3F
def OPCODE_RD_RPT : Nat := 0x40
def OPCODE_RD_INC : Nat := 0x50

/-- `ConfigBus.__init__`: `fastwr = fastwrite or not readable`;
`etype_ack = pack('>H', ethertype + 1)`;
`ethhdr = mac_addr + if_obj.mac + pack('>H', ethertype)`. -/
def init (macAddr ifMac : List Nat) (ethertype : Nat)
    (fastwrite readable : Bool) : CfgState :=
  { fastwr := fastwrite || !readable
    readable := readable
    reply := none
    seq := 0
    etypeAck := packH (ethertype + 1)
    ethhdr := macAddr ++ ifMac ++ packH ethertype }

/-- `_msg_send`: clear the reply slot, then hand `ethhdr + cmd` to the
transport.  Returns the new state and the frame given to `msg_send`. -/
def msg_send (s : CfgState) (cmd : List Nat) : CfgState × List Nat :=
  ({ s with reply := none }, s.ethhdr ++ cmd)

/-- `_msg_rcvd`: the inbound callback.  Returns the new state and whether a
waiting thread was notified (`cv.notify`). -/
def msg_rcvd (s : CfgState) (frm : List Nat) : CfgState × Bool :=
  if frm.length < 20 then (s, false)
  else if frm.getD 12 0 ≠ s.etypeAck.getD 0 0 then (s, false)
  else if frm.getD 13 0 ≠ s.etypeAck.getD 1 0 then (s, false)
  else if s.fastwr = true ∧ s.seq ≠ frm.getD 16 0 then (s, false)
  else ({ s with reply := some (frm.drop 14) }, true)

/-- `_msg_skip`: advance the sequence counter, ignoring the next reply. -/
def msg_skip (s : CfgState) : CfgState :=
  { s with seq := (s.seq + 1) % 256 }

/-- `_msg_wait`: runs after the `cv.wait` timeout or notification; `s` is the
state at that moment.  Reads the slot, clears it, advances the sequence. -/
def msg_wait (s : CfgState) : Option (List Nat) × CfgState :=
  (s.reply, { s with reply := none, seq := (s.seq + 1) % 256 })

/-- `pack(f'>{n}L', *vals)`: each word as four big-endian bytes. -/
def packVals : List Nat → List Nat
  | [] => []
  | v :: t => packL v ++ packVals t

/-- `unpack(f'>{n}L', buf)` payload words (callers check the length). -/
def unpackWords : Nat → List Nat → List Nat
  | 0, _ => []
  | n + 1, buf => unpackL (buf.take 4) :: unpackWords n (buf.drop 4)

/-- `write_reg(devaddr, regaddr, val)`.  Returns the result, the frame handed
to the transport, and the final session state. -/
def write_reg (s : CfgState) (devaddr regaddr val : Nat)
    (delivered : Option (List Nat)) : Bool × List Nat × CfgState :=
  let adr := 1024 * devaddr + regaddr
  let frm := packB OPCODE_WR_RPT ++ packB 0 ++ packB s.seq ++ packB 0 ++
    packL adr ++ packL val
  let sw := msg_send s frm
  if sw.1.fastwr then
    (true, sw.2, msg_skip sw.1)
  else
    let tw := msg_wait { sw.1 with reply := delivered }
    (tw.1.isSome, sw.2, tw.2)

/-- `multi_write(devaddr, regaddr, vals, increment)`. -/
def multi_write (s : CfgState) (devaddr regaddr : Nat) (vals : List Nat)
    (increment : Bool) (delivered : Option (List Nat)) :
    Bool × List Nat × CfgState :=
  let cmd := if increment then OPCODE_WR_INC else OPCODE_WR_RPT
  let flg := vals.length - 1
  let adr := 1024 * devaddr + regaddr
  let frm := packB cmd ++ packB flg ++ packB s.seq ++ packB 0 ++
    packL adr ++ packVals vals
  let sw := msg_send s frm
  if sw.1.fastwr then
    (true, sw.2, msg_skip sw.1)
  else
    let tw := msg_wait { sw.1 with reply := delivered }
    (tw.1.isSome, sw.2, tw.2)

/-- `read_reg(devaddr, regaddr)`.  `unpack('>LB', reply[8:13])` raises
`struct.error` when the slice is shorter than five bytes; the model keeps
that branch explicit (it is unreachable past the length guard). -/
def read_reg (s : CfgState) (devaddr regaddr : Nat)
    (delivered : Option (List Nat)) :
    PyResult (Option Nat) × List Nat × CfgState :=
  let adr := 1024 * devaddr + regaddr
  let frm := packB OPCODE_RD_RPT ++ packB 0 ++ packB s.seq ++ packB 0 ++
    packL adr
  let sw := msg_send s frm
  if sw.1.readable then
    let tw := msg_wait { sw.1 with reply := delivered }
    match tw.1 with
    | none => (.ok none, sw.2, tw.2)
    | some r =>
      if r.length < 13 then (.ok none, sw.2, tw.2)
      else
        let buf := (r.drop 8).take 5
        if buf.length ≠ 5 then (.exn, sw.2, tw.2)
        else
          let word := unpackL (buf.take 4)
          let status := buf.getD 4 0
          if status ≠ 0 then (.ok none, sw.2, tw.2)
          else (.ok (some word), sw.2, tw.2)
  else
    (.ok none, sw.2, msg_skip sw.1)

/-- `multi_read(devaddr, regaddr, nwords, increment)`.
`unpack(f'>{nwords}L', reply[8:12+4*flg])` raises `struct.error` when the
slice holds fewer than `4*nwords` bytes, and `reply[12+4*flg]` raises
`IndexError` when the reply is too short for the status byte. -/
def multi_read (s : CfgState) (devaddr regaddr nwords : Nat)
    (increment : Bool) (delivered : Option (List Nat)) :
    PyResult (Option (List Nat)) × List Nat × CfgState :=
  let cmd := if increment then OPCODE_RD_INC else OPCODE_RD_RPT
  let flg := nwords - 1
  let adr := 1024 * devaddr + regaddr
  let frm := packB cmd ++ packB flg ++ packB s.seq ++ packB 0 ++ packL adr
  let sw := msg_send s frm
  if sw.1.readable then
    let tw := msg_wait { sw.1 with reply := delivered }
    match tw.1 with
    | none => (.ok none, sw.2, tw.2)
    | some r =>
      if r.length < 13 then (.ok none, sw.2, tw.2)
      else
        let buf := (r.drop 8).take (4 + 4 * flg)
        if buf.length ≠ 4 * nwords then (.exn, sw.2, tw.2)
        else
          let words := unpackWords nwords buf
          if r.length ≤ 12 + 4 * flg then (.exn, sw.2, tw.2)
          else
            let status := r.getD (12 + 4 * flg) 0
            if status ≠ 0 then (.ok none, sw.2, tw.2)
            else (.ok (some words), sw.2, tw.2)
  else
    (.ok none, sw.2, msg_skip sw.1)

end ConfigBus

/-! ### Object identity of the ConfigBus lock and condition variable

In `satcat5_cfgbus.py` the line `lock = threading.Lock()` sits in the class
body of `ConfigBus`, so it runs exactly once, when the class is defined; every
instance's `self.lock` resolves to that one class attribute.  By contrast
`self.cv = Condition()` runs inside `__init__`, allocating a fresh object per
instance.  Heap identities are modelled as naturals: the class-level lock has
a fixed identity, and `mkConfigBusObj` takes the identity `fresh` of the
`Condition` allocated by that particular `__init__` call (distinct calls pass
distinct identities). -/

def classLockId : Nat := 0

structure ConfigBusObj where
  lockId : Nat
  cvId : Nat
  st : CfgState
  deriving DecidableEq, Repr

def mkConfigBusObj (fresh : Nat) (macAddr ifMac : List Nat) (ethertype : Nat)
    (fastwrite readable : Bool) : ConfigBusObj :=
  { lockId := classLockId
    cvId := fresh
    st := ConfigBus.init macAddr ifMac ethertype fastwrite readable }

/-- Acquiring a `threading.Lock` object excludes every other acquire of the
same object, so command issuance on two sessions mutually excludes exactly
when the two sessions' locks are the same heap object. -/
def locksExclude (a b : ConfigBusObj) : Prop := a.lockId = b.lockId

/-! ### Concrete sessions used by the witnesses -/

/-- A readable, blocking-mode session at default EtherType `0x5C01`. -/
def demoSession : CfgState :=
  ConfigBus.init [1, 2, 3, 4, 5, 6] [0xAE, 0x20, 7, 8, 9, 10] 0x5C01 false true

/-- First of two sessions created one after the other. -/
def sessionA : ConfigBusObj :=
  mkConfigBusObj 1 [0, 0, 0, 0, 0, 1] [0xAE, 0x20, 0, 0, 0, 2] 0x5C01 false true

/-- Second of two sessions created one after the other. -/
def sessionB : ConfigBusObj :=
  mkConfigBusObj 2 [0, 0, 0, 0, 0, 3] [0xAE, 0x20, 0, 0, 0, 4] 0x5C01 false true

/-! ### The claims -/

/-- C1: Framing round-trip: for every byte string `p`, including the empty
string and strings containing the `END` (`0xC0`) and `ESC` (`0xDB`) bytes,
`slipDecode (slipEncode p) = p`. -/
theorem claim_C1_slip_roundtrip (p : List Nat) :
    slipDecode (slipEncode p) = p :=
  slip_roundtrip p

/-- C6: Self-delimiting encoding: for every byte string `p`, the `END` byte
`0xC0` occurs in `slipEncode p` exactly once, as the final byte; no byte of
the encoded body equals `0xC0`. -/
theorem claim_C6_self_delimiting (p : List Nat) :
    ∃ body, slipEncode p = body ++ [0xC0] ∧ (0xC0 : Nat) ∉ body ∧
      (slipEncode p).count 0xC0 = 1 := by
  refine ⟨encBody p, slipEncode_eq p, encBody_no_end p, ?_⟩
  rw [slipEncode_eq, List.count_append,
      List.count_eq_zero.mpr (encBody_no_end p)]
  rfl

/-- C7: Integrity reference vectors: `ethernet_crc` applied to the fixed
reference packets `PKT1` and `PKT2` yields the fixed reference checksums
(equivalently, `crc_self_test` returns 0). -/
theorem claim_C7_crc_vectors :
    ethernet_crc PKT1 = REF1 ∧ ethernet_crc PKT2 = REF2 ∧ crc_self_test = 0 := by
  refine ⟨ethernet_crc_PKT1, ethernet_crc_PKT2, ?_⟩
  rw [crc_self_test, if_neg, if_neg]
  · intro h
    exact h ethernet_crc_PKT2.symm
  · intro h
    exact h ethernet_crc_PKT1.symm

/-- C4: Sequence advance on every resolution: whenever `_msg_wait` completes,
whether the reply slot holds a reply or the timeout expired with it empty,
the sequence counter is incremented by exactly 1 modulo 256 and the
pending-reply slot is reset to `none`. -/
theorem claim_C4_wait_advances (s : CfgState) :
    (ConfigBus.msg_wait s).2.seq = (s.seq + 1) % 256 ∧
      (ConfigBus.msg_wait s).2.reply = none :=
  ⟨rfl, rfl⟩

/-- C3: Stale-reply rejection: an inbound frame shorter than 20 bytes, or
whose EtherType bytes at offsets 12-13 differ from the session's reply
EtherType, or, in fire-and-forget mode, whose echoed sequence byte at offset
16 differs from the session's sequence counter, leaves the pending-reply slot
(and all other state) unchanged and notifies no waiting caller. -/
theorem claim_C3_stale_reply_ignored (s : CfgState) (frm : List Nat)
    (h : frm.length < 20 ∨
      frm.getD 12 0 ≠ s.etypeAck.getD 0 0 ∨
      frm.getD 13 0 ≠ s.etypeAck.getD 1 0 ∨
      (s.fastwr = true ∧ frm.getD 16 0 ≠ s.seq)) :
    ConfigBus.msg_rcvd s frm = (s, false) := by
  rw [ConfigBus.msg_rcvd]
  split_ifs with h1 h2 h3 h4
  · rfl
  · rfl
  · rfl
  · rfl
  · rcases h with h | h | h | h
    · exact absurd h h1
    · exact absurd h h2
    · exact absurd h h3
    · exact absurd ⟨h.1, fun e => h.2 e.symm⟩ h4

theorem claim_C3_witness :
    ConfigBus.msg_rcvd demoSession [0xAA, 0xBB] = (demoSession, false) :=
  claim_C3_stale_reply_ignored demoSession [0xAA, 0xBB] (Or.inl (by decide))

/-- The frame `write_reg` hands to the transport, independent of the branch
taken afterwards. -/
theorem write_reg_wire (s : CfgState) (devaddr regaddr val : Nat)
    (delivered : Option (List Nat)) :
    (ConfigBus.write_reg s devaddr regaddr val delivered).2.1 =
      s.ethhdr ++ (packB ConfigBus.OPCODE_WR_RPT ++ packB 0 ++ packB s.seq ++
        packB 0 ++ packL (1024 * devaddr + regaddr) ++ packL val) := by
  rw [ConfigBus.write_reg]
  split <;> rfl

/-- C5: Command wire layout: for `write_reg devaddr regaddr val` with
`devaddr ≤ 255`, `regaddr ≤ 1023`, a 32-bit `val` and an in-range sequence
counter, the frame passed to the transport is the fixed Ethernet header
followed by, in big-endian order, the opcode byte `0x2F`, the byte `0x00`
(word count minus one), the session's sequence byte, one reserved zero byte,
the four-byte flat address `1024 * devaddr + regaddr`, and the four-byte
value (`packL` is four bytes big-endian). -/
theorem claim_C5_write_wire_layout (s : CfgState) (devaddr regaddr val : Nat)
    (delivered : Option (List Nat))
    (hd : devaddr ≤ 255) (hr : regaddr ≤ 1023) (hv : val < 4294967296)
    (hs : s.seq < 256) :
    (ConfigBus.write_reg s devaddr regaddr val delivered).2.1 =
      s.ethhdr ++ 0x2F :: 0x00 :: s.seq :: 0x00 ::
        (packL (1024 * devaddr + regaddr) ++ packL val) := by
  rw [write_reg_wire]
  simp [packB, ConfigBus.OPCODE_WR_RPT, Nat.mod_eq_of_lt hs]

theorem claim_C5_witness :
    (ConfigBus.write_reg demoSession 3 5 0xDEADBEEF none).2.1 =
      demoSession.ethhdr ++ 0x2F :: 0x00 :: demoSession.seq :: 0x00 ::
        (packL (1024 * 3 + 5) ++ packL 0xDEADBEEF) :=
  claim_C5_write_wire_layout demoSession 3 5 0xDEADBEEF none
    (by decide) (by decide) (by decide) (by decide)

/-- C2: the guard `len(reply) < 13` in `multi_read` does not cover replies
long enough for a single-word read but too short for `nwords` words: for
`nwords = 2` a stored 13-byte reply makes `unpack(f'>2L', reply[8:16])`
raise `struct.error` (the five available bytes are fewer than the eight
required), where the claim requires `None` without an exception.  The session
state itself is still left consistent (slot cleared, sequence advanced), and
`read_reg` on the same reply returns `None` as claimed. -/
theorem claim_C2_multi_read_raises :
    (ConfigBus.multi_read demoSession 1 2 2 false
        (some (List.replicate 13 0))).1 = PyResult.exn ∧
    (ConfigBus.multi_read demoSession 1 2 2 false
        (some (List.replicate 13 0))).2.2.reply = none ∧
    (ConfigBus.multi_read demoSession 1 2 2 false
        (some (List.replicate 13 0))).2.2.seq = 1 ∧
    (ConfigBus.read_reg demoSession 1 2
        (some (List.replicate 12 0))).1 = PyResult.ok none := by
  refine ⟨?_, ?_, ?_, ?_⟩ <;> decide

/-- C8: Configurable integrity-failure policy: with FCS checking enabled and a
callback registered, a decoded frame of length at least 18 is delivered with
its four-byte FCS removed when the trailer matches the CRC-32 of the rest;
on a mismatch it is dropped when drop-on-failure is set, and otherwise still
delivered (minus FCS) after a logged warning.  The function is total, so no
integrity failure raises or ends the session. -/
theorem claim_C8_fcs_policy (drop_fcs : Bool) (f : List Nat)
    (h : 18 ≤ (slipDecode f).length) :
    (ethernet_crc ((slipDecode f).take ((slipDecode f).length - 4)) =
        (slipDecode f).drop ((slipDecode f).length - 4) →
      AsyncSLIPPort.msg_rcvd true true drop_fcs f =
        (some ((slipDecode f).take ((slipDecode f).length - 4)), false)) ∧
    (ethernet_crc ((slipDecode f).take ((slipDecode f).length - 4)) ≠
        (slipDecode f).drop ((slipDecode f).length - 4) →
      drop_fcs = true →
      AsyncSLIPPort.msg_rcvd true true drop_fcs f = (none, false)) ∧
    (ethernet_crc ((slipDecode f).take ((slipDecode f).length - 4)) ≠
        (slipDecode f).drop ((slipDecode f).length - 4) →
      drop_fcs = false →
      AsyncSLIPPort.msg_rcvd true true drop_fcs f =
        (some ((slipDecode f).take ((slipDecode f).length - 4)), true)) := by
  refine ⟨fun hm => ?_, fun hm hd => ?_, fun hm hd => ?_⟩
  · simp [AsyncSLIPPort.msg_rcvd, h, hm]
  · simp [AsyncSLIPPort.msg_rcvd, h, hm, hd]
  · simp [AsyncSLIPPort.msg_rcvd, h, hm, hd]

/-- Payload of the C8 witness frame (no SLIP-special bytes). -/
def datW : List Nat := [1, 2, 3, 4, 5, 6, 7, 8, 9, 10, 11, 12, 13, 14]

/-- C8 witness frame: payload plus its little-endian CRC-32 trailer. -/
def fW : List Nat := datW ++ [126, 29, 4, 166]

theorem claim_C8_witness :
    AsyncSLIPPort.msg_rcvd true true true fW = (some datW, false) := by
  have hlen : 18 ≤ (slipDecode fW).length := by decide
  have hdec : slipDecode fW = fW := by decide
  have hcrc : crc32 datW = 0xA6041D7E := by
    simp [crc32, datW, List.foldl, crcByte_unfold, crcStep]
  have hm : ethernet_crc ((slipDecode fW).take ((slipDecode fW).length - 4)) =
      (slipDecode fW).drop ((slipDecode fW).length - 4) := by
    rw [hdec, show fW.take (fW.length - 4) = datW from by decide,
        show fW.drop (fW.length - 4) = [126, 29, 4, 166] from by decide,
        ethernet_crc, hcrc]
    decide
  have hres := (claim_C8_fcs_policy true fW hlen).1 hm
  rw [hdec, show fW.take (fW.length - 4) = datW from by decide] at hres
  exact hres

/-- C9 counterexample: two ConfigBus sessions built by separate constructor
calls are distinct objects, yet issuing a command on one excludes issuing on
the other, because `self.lock` on both resolves to the single `Lock`
allocated in the class body — refuting the claim that the serialization lock
is state owned by each individual session. -/
theorem claim_C9_counterexample :
    sessionA ≠ sessionB ∧ locksExclude sessionA sessionB :=
  ⟨by decide, rfl⟩

/-- C9 (amended): the mutual-exclusion lock serializing command issuance is a
single class-level attribute shared by every ConfigBus session, so acquiring
one session's lock excludes command issuance on every other session; only the
condition variable (`self.cv`, created in `__init__`) is per-session. -/
theorem claim_C9_class_level_lock (f1 f2 : Nat) (m1 i1 m2 i2 : List Nat)
    (e1 e2 : Nat) (fw1 rd1 fw2 rd2 : Bool) (h : f1 ≠ f2) :
    locksExclude (mkConfigBusObj f1 m1 i1 e1 fw1 rd1)
        (mkConfigBusObj f2 m2 i2 e2 fw2 rd2) ∧
      (mkConfigBusObj f1 m1 i1 e1 fw1 rd1).cvId ≠
        (mkConfigBusObj f2 m2 i2 e2 fw2 rd2).cvId :=
  ⟨rfl, h⟩

theorem claim_C9_witness :
    locksExclude sessionA sessionB ∧ sessionA.cvId ≠ sessionB.cvId :=
  claim_C9_class_level_lock 1 2 [0, 0, 0, 0, 0, 1] [0xAE, 0x20, 0, 0, 0, 2]
    [0, 0, 0, 0, 0, 3] [0xAE, 0x20, 0, 0, 0, 4] 0x5C01 0x5C01
    false true false true (by decide)

/-- C10: a session constructed with `readable = False` is forced into
fast-write mode whatever `fastwrite` was; on any such session `write_reg` and
`multi_write` return `True` without consulting the reply slot, and `read_reg`
still transmits the read command, advances the sequence counter by 1 mod 256,
and returns `None` unconditionally. -/
theorem claim_C10_writeonly_fastwrite (mac ifmac : List Nat) (etype : Nat)
    (fastwrite : Bool) (s : CfgState) (d r v : Nat) (vals : List Nat)
    (inc : Bool) (del1 del2 del3 : Option (List Nat))
    (hs : s.readable = false) (hf : s.fastwr = true) :
    (ConfigBus.init mac ifmac etype fastwrite false).readable = false ∧
    (ConfigBus.init mac ifmac etype fastwrite false).fastwr = true ∧
    (ConfigBus.write_reg s d r v del1).1 = true ∧
    (ConfigBus.multi_write s d r vals inc del2).1 = true ∧
    (ConfigBus.read_reg s d r del3).1 = PyResult.ok none ∧
    (ConfigBus.read_reg s d r del3).2.1 =
      s.ethhdr ++ (packB ConfigBus.OPCODE_RD_RPT ++ packB 0 ++ packB s.seq ++
        packB 0 ++ packL (1024 * d + r)) ∧
    (ConfigBus.read_reg s d r del3).2.2.seq = (s.seq + 1) % 256 := by
  refine ⟨rfl, ?_, ?_, ?_, ?_, ?_, ?_⟩
  · simp [ConfigBus.init]
  · simp [ConfigBus.write_reg, ConfigBus.msg_send, hf]
  · simp [ConfigBus.multi_write, ConfigBus.msg_send, hf]
  · simp [ConfigBus.read_reg, ConfigBus.msg_send, hs]
  · simp [ConfigBus.read_reg, ConfigBus.msg_send, hs]
  · simp [ConfigBus.read_reg, ConfigBus.msg_send, ConfigBus.msg_skip, hs]

/-- A write-only session (`readable = False`, `fastwrite = False`). -/
def demoWriteOnly : CfgState :=
  ConfigBus.init [1, 2, 3, 4, 5, 6] [0xAE, 0x20, 7, 8, 9, 10] 0x5C01 false false

theorem claim_C10_witness :
    (ConfigBus.init [1, 2, 3, 4, 5, 6] [0xAE, 0x20, 7, 8, 9, 10] 0x5C01
        false false).readable = false ∧
    (ConfigBus.init [1, 2, 3, 4, 5, 6] [0xAE, 0x20, 7, 8, 9, 10] 0x5C01
        false false).fastwr = true ∧
    (ConfigBus.write_reg demoWriteOnly 3 5 7 none).1 = true ∧
    (ConfigBus.multi_write demoWriteOnly 3 5 [1, 2] false none).1 = true ∧
    (ConfigBus.read_reg demoWriteOnly 3 5 none).1 = PyResult.ok none ∧
    (ConfigBus.read_reg demoWriteOnly 3 5 none).2.1 =
      demoWriteOnly.ethhdr ++ (packB ConfigBus.OPCODE_RD_RPT ++ packB 0 ++
        packB demoWriteOnly.seq ++ packB 0 ++ packL (1024 * 3 + 5)) ∧
    (ConfigBus.read_reg demoWriteOnly 3 5 none).2.2.seq =
      (demoWriteOnly.seq + 1) % 256 :=
  claim_C10_writeonly_fastwrite [1, 2, 3, 4, 5, 6] [0xAE, 0x20, 7, 8, 9, 10]
    0x5C01 false demoWriteOnly 3 5 7 [1, 2] false none none none
    (by decide) (by decide)

end SatCat5
